import Mathlib

/-!
Shallow embedding of the NextjsStarter client core: the HTTP request
gateway (`src/config/apiBase.ts`), the user resource client
(`src/services/users/user-service.ts`), and the query/cache layer
(`src/queries/userQuery.ts`).  Machine-level JavaScript behaviour that
the code relies on (string truthiness, `||` defaulting, JSON object
field presence) is modelled explicitly.
-/

namespace NextjsStarter

/-- JSON-like values: the shape of request bodies handed to
`JSON.stringify` by the gateway.  An absent optional object field is
simply not present in the `obj` field list, matching how a TypeScript
object literal omits an unset optional property. -/
inductive Json where
  | null : Json
  | bool : Bool → Json
  | num : Int → Json
  | str : String → Json
  | obj : List (String × Json) → Json

/-- JavaScript truthiness of a JSON value (`undefined` is handled one
level up, by `Option`): `null`, `false`, `0` and `""` are falsy,
every object is truthy. -/
def Json.truthy : Json → Bool
  | .null => false
  | .bool b => b
  | .num n => n != 0
  | .str s => s != ""
  | .obj _ => true

/-- Field lookup on a JSON object, as JavaScript property access. -/
def Json.getField : Json → String → Option Json
  | .obj kvs, key => (kvs.find? (fun kv => kv.1 == key)).map (fun kv => kv.2)
  | _, _ => none

/-- The keys present in a JSON object body. -/
def Json.keys : Json → List String
  | .obj kvs => kvs.map (fun kv => kv.1)
  | _ => []

/-- The HTTP methods accepted by `ApiBase.makeRequest`
(`apiBase.ts` line 13). -/
inductive Method where
  | GET | POST | PUT | DELETE | PATCH
deriving DecidableEq

/-- Source: `['POST', 'PUT', 'PATCH'].includes(method)` — the body-carrying
check of `apiBase.ts` line 43. -/
def Method.supportsBody : Method → Bool
  | .POST => true
  | .PUT => true
  | .PATCH => true
  | _ => false

/-- JavaScript `a || b` on an optional string: `undefined` and `""`
are falsy, so `b` is used exactly when `a` is absent or empty. -/
def jsOrStr (a : Option String) (b : String) : String :=
  match a with
  | some s => if s = "" then b else s
  | none => b

/-- JavaScript `!!s` for a possibly-absent string value: false exactly
on `undefined` and `""`. -/
def jsTruthyStr : Option String → Bool
  | none => false
  | some s => s != ""

/-- UTF-8 bytes of a character, by the standard arithmetic encoding. -/
def utf8Bytes (c : Char) : List Nat :=
  let n := c.toNat
  if n < 0x80 then [n]
  else if n < 0x800 then [0xC0 + n / 0x40, 0x80 + n % 0x40]
  else if n < 0x10000 then
    [0xE0 + n / 0x1000, 0x80 + (n / 0x40) % 0x40, 0x80 + n % 0x40]
  else
    [0xF0 + n / 0x40000, 0x80 + (n / 0x1000) % 0x40,
     0x80 + (n / 0x40) % 0x40, 0x80 + n % 0x40]

/-- Upper-case hexadecimal digit. -/
def hexDigit (n : Nat) : Char :=
  if n < 10 then Char.ofNat (48 + n) else Char.ofNat (55 + n - 10)

/-- The `%XX` percent-encoding of one byte. -/
def percentEncodeByte (b : Nat) : String :=
  String.mk ['%', hexDigit (b / 16), hexDigit (b % 16)]

/-- One character under `application/x-www-form-urlencoded` encoding,
as `URLSearchParams.toString` produces it: alphanumerics and `*-._`
pass through, space becomes `+`, everything else is percent-encoded
byte-wise. -/
def urlEncodeChar (c : Char) : String :=
  if c.isAlphanum || c = '*' || c = '-' || c = '.' || c = '_' then
    String.mk [c]
  else if c = ' ' then "+"
  else String.join ((utf8Bytes c).map percentEncodeByte)

/-- Form-urlencoding of a whole string. -/
def urlEncode (s : String) : String :=
  String.join (s.toList.map urlEncodeChar)

/-- Source: `new URLSearchParams(params).toString()` over the record's entries
(`apiBase.ts` lines 29 and 30). -/
def searchParamsToString (ps : List (String × String)) : String :=
  String.intercalate "&" (ps.map (fun p => urlEncode p.1 ++ "=" ++ urlEncode p.2))

/-- The options record of `ApiBase.makeRequest` (`apiBase.ts` lines
12 to 17), with the defaults of lines 19 to 24.  `data : Option Json`
models the `data?: any` argument: `none` is an absent argument. -/
structure RequestOptions where
  method : Method := Method.GET
  data : Option Json := none
  headers : List (String × String) := []
  params : Option (List (String × String)) := none

/-- The outgoing request as configured before `fetch` is called: the
built URL, the method, the merged headers (later entries override
earlier ones, as object spread does), and the attached body if any. -/
structure BuiltRequest where
  url : String
  method : Method
  headers : List (String × String)
  body : Option Json

namespace ApiBase

/-- Base-address resolution of the `ApiBase` constructor
(`apiBase.ts` line 7):
`baseUrl || process.env.NEXT_PUBLIC_API_BASE || 'http://localhost:3000'`.
The field is `readonly`, so the resolved value never changes after
construction; here it is simply the value of this pure function. -/
def resolveBaseUrl (baseUrl env : Option String) : String :=
  jsOrStr baseUrl (jsOrStr env "http://localhost:3000")

/-- The request-building half of `ApiBase.makeRequest` (`apiBase.ts`
lines 26 to 45): URL with query string appended when `params` is
present, `Content-Type: application/json` merged under the caller's
headers, and a body attached only when `data` is truthy and the
method is POST, PUT or PATCH. -/
def makeRequest (baseUrl path : String) (options : RequestOptions) : BuiltRequest :=
  { url :=
      match options.params with
      | some ps => baseUrl ++ path ++ "?" ++ searchParamsToString ps
      | none => baseUrl ++ path
    method := options.method
    headers := ("Content-Type", "application/json") :: options.headers
    body :=
      match options.data with
      | some d => if d.truthy && options.method.supportsBody then some d else none
      | none => none }

end ApiBase

/-- JavaScript exception values that can flow through the gateway's
`try`/`catch`: a plain `Error` carries only a message string (the
only error the gateway itself constructs, `apiBase.ts` line 52), and
`TypeError` is what `fetch` rejects with on a transport failure.
Both are rethrown unchanged by the `catch` block of lines 62 to 65. -/
inductive JsError where
  | error (message : String)
  | typeError (message : String)
deriving DecidableEq

/-- What the awaited platform calls inside the `try` block did:
either the transport completed with a status, a content type and a
raw body, or some awaited call threw. -/
inductive FetchOutcome where
  | completed (status : Nat) (contentType : Option String) (body : String)
  | threw (e : JsError)

/-- The value `makeRequest` resolves with: parsed-JSON branch or raw
text branch (`apiBase.ts` lines 56 to 61); the parse itself is left
at the platform boundary, the raw body is carried. -/
inductive ResponseValue where
  | json (raw : String)
  | text (raw : String)
deriving DecidableEq

/-- Source: `response.ok`: status in [200, 299]. -/
def statusOk (status : Nat) : Bool :=
  200 ≤ status && status ≤ 299

/-- JavaScript `String.prototype.includes`. -/
def jsIncludes (s sub : String) : Bool :=
  (s.splitOn sub).length ≥ 2

namespace ApiBase

/-- The response half of `ApiBase.makeRequest` (`apiBase.ts` lines 47
to 65): a non-ok status throws `new Error('HTTP error! status: ' +
status)`; the content type selects JSON or text decoding; any
exception thrown inside the `try` block is logged and rethrown
unchanged. -/
def handleResponse (o : FetchOutcome) : Except JsError ResponseValue :=
  match o with
  | .threw e => .error e
  | .completed status ct body =>
    if !(statusOk status) then
      .error (JsError.error ("HTTP error! status: " ++ toString status))
    else
      match ct with
      | some c =>
        if jsIncludes c "application/json" then .ok (.json body)
        else .ok (.text body)
      | none => .ok (.text body)

end ApiBase

/-- Source: `PagedUserParams` (`src/types/users/index.tsx`): every field is
optional; `none` means the property is absent from the object. -/
structure PagedUserParams where
  PageNumber : Option Nat := none
  PageSize : Option Nat := none
  SearchTerm : Option String := none
  SortBy : Option String := none
  SortDescending : Option Bool := none
  Email : Option String := none
  Name : Option String := none
  Phone : Option String := none
  RoleId : Option String := none
  Status : Option String := none
deriving DecidableEq

/-- The entries `URLSearchParams` enumerates from a `PagedUserParams`
object (`params as Record<string, string>` in `getUsers`): present
properties only, in interface order, values stringified the way
JavaScript does. -/
def PagedUserParams.toRecord (p : PagedUserParams) : List (String × String) :=
  (p.PageNumber.map (fun n => ("PageNumber", toString n))).toList ++
  (p.PageSize.map (fun n => ("PageSize", toString n))).toList ++
  (p.SearchTerm.map (fun s => ("SearchTerm", s))).toList ++
  (p.SortBy.map (fun s => ("SortBy", s))).toList ++
  (p.SortDescending.map (fun b => ("SortDescending", if b then "true" else "false"))).toList ++
  (p.Email.map (fun s => ("Email", s))).toList ++
  (p.Name.map (fun s => ("Name", s))).toList ++
  (p.Phone.map (fun s => ("Phone", s))).toList ++
  (p.RoleId.map (fun s => ("RoleId", s))).toList ++
  (p.Status.map (fun s => ("Status", s))).toList

/-- The user lifecycle status union type
(`'active' | 'inactive' | 'pending'`). -/
inductive UserStatus where
  | active | inactive | pending
deriving DecidableEq

/-- The wire string of a status literal. -/
def UserStatus.toWire : UserStatus → String
  | .active => "active"
  | .inactive => "inactive"
  | .pending => "pending"

/-- Source: `CreateUserRequest` (`src/types/users/index.tsx`): `phone` is the
only optional field. -/
structure CreateUserRequest where
  email : String
  name : String
  phone : Option String := none
  password : String
deriving DecidableEq

/-- The JSON object a `CreateUserRequest` literal serializes to: an
absent `phone` contributes no key at all. -/
def CreateUserRequest.toJson (r : CreateUserRequest) : Json :=
  Json.obj
    ([("email", Json.str r.email), ("name", Json.str r.name)] ++
     (match r.phone with
      | some p => [("phone", Json.str p)]
      | none => []) ++
     [("password", Json.str r.password)])

namespace UserService

/-- Source: `private readonly basePath = '/api/users'`. -/
def basePath : String := "/api/users"

/-- Source: `pageNumber?.toString() || '1'` and the like: optional-chaining
stringification followed by JavaScript `||` defaulting. -/
def pageParam (n : Option Nat) (dflt : String) : String :=
  jsOrStr (n.map (fun v => toString v)) dflt

/-- Source: `UserService.createUser`: `POST basePath` with the user data as
body. -/
def createUser (baseUrl : String) (userData : CreateUserRequest) : BuiltRequest :=
  ApiBase.makeRequest baseUrl basePath
    { method := Method.POST, data := some userData.toJson }

/-- Source: `UserService.getUserById`: `GET basePath/{id}` with default
options. -/
def getUserById (baseUrl id : String) : BuiltRequest :=
  ApiBase.makeRequest baseUrl (basePath ++ "/" ++ id) {}

/-- Source: `UserService.getUsers`: `GET basePath` passing the caller's
params object through unchanged — no pagination defaults are
applied here. -/
def getUsers (baseUrl : String) (params : Option PagedUserParams) : BuiltRequest :=
  ApiBase.makeRequest baseUrl basePath
    { method := Method.GET, params := params.map PagedUserParams.toRecord }

/-- Source: `UserService.searchUsers`: `GET basePath/search` with
`searchTerm` and defaulted pagination. -/
def searchUsers (baseUrl searchTerm : String)
    (pageNumber pageSize : Option Nat) : BuiltRequest :=
  ApiBase.makeRequest baseUrl (basePath ++ "/search")
    { method := Method.GET
      params := some
        [("searchTerm", searchTerm),
         ("pageNumber", pageParam pageNumber "1"),
         ("pageSize", pageParam pageSize "10")] }

/-- Source: `UserService.getUsersByRole`: `GET basePath/role/{roleId}` with
defaulted pagination. -/
def getUsersByRole (baseUrl roleId : String)
    (pageNumber pageSize : Option Nat) : BuiltRequest :=
  ApiBase.makeRequest baseUrl (basePath ++ "/role/" ++ roleId)
    { method := Method.GET
      params := some
        [("pageNumber", pageParam pageNumber "1"),
         ("pageSize", pageParam pageSize "10")] }

/-- Source: `UserService.getActiveUsers`: `GET basePath/active` with
defaulted pagination. -/
def getActiveUsers (baseUrl : String)
    (pageNumber pageSize : Option Nat) : BuiltRequest :=
  ApiBase.makeRequest baseUrl (basePath ++ "/active")
    { method := Method.GET
      params := some
        [("pageNumber", pageParam pageNumber "1"),
         ("pageSize", pageParam pageSize "10")] }

/-- Source: `UserService.updateUser`: `PUT basePath/{id}` with the update
data as body. -/
def updateUser (baseUrl id : String) (userData : Json) : BuiltRequest :=
  ApiBase.makeRequest baseUrl (basePath ++ "/" ++ id)
    { method := Method.PUT, data := some userData }

/-- Source: `UserService.deleteUser`: `DELETE basePath/{id}`. -/
def deleteUser (baseUrl id : String) : BuiltRequest :=
  ApiBase.makeRequest baseUrl (basePath ++ "/" ++ id)
    { method := Method.DELETE }

/-- Source: `UserService.updateUserStatus`: `PATCH basePath/{id}/status` with
body `{ status }`. -/
def updateUserStatus (baseUrl id : String) (status : UserStatus) : BuiltRequest :=
  ApiBase.makeRequest baseUrl (basePath ++ "/" ++ id ++ "/status")
    { method := Method.PATCH
      data := some (Json.obj [("status", Json.str status.toWire)]) }

end UserService

/-- One element of a query key array.  The arrays built by
`QUERY_KEYS` mix string literals, parameter strings, possibly-absent
numbers, and a possibly-absent `PagedUserParams` object; each kind is
one constructor, so key equality is the structural equality of the
underlying values. -/
inductive KeyPart where
  | str (s : String)
  | num (n : Option Nat)
  | pagedParams (p : Option PagedUserParams)
deriving DecidableEq

/-- A query key: the array of parts, compared structurally. -/
abbrev QueryKey := List KeyPart

namespace QUERY_KEYS

/-- Source: `QUERY_KEYS.users = ['users']`. -/
def users : QueryKey := [KeyPart.str "users"]

/-- Source: `QUERY_KEYS.user(id) = ['users', id]`. -/
def user (id : String) : QueryKey := [KeyPart.str "users", KeyPart.str id]

/-- Source: `QUERY_KEYS.usersPaged(params) = ['users', 'paged', params]`. -/
def usersPaged (params : Option PagedUserParams) : QueryKey :=
  [KeyPart.str "users", KeyPart.str "paged", KeyPart.pagedParams params]

/-- Source: `QUERY_KEYS.searchUsers(searchTerm, pageNumber, pageSize) =
['users', 'search', searchTerm, pageNumber, pageSize]`. -/
def searchUsers (searchTerm : String) (pageNumber pageSize : Option Nat) : QueryKey :=
  [KeyPart.str "users", KeyPart.str "search", KeyPart.str searchTerm,
   KeyPart.num pageNumber, KeyPart.num pageSize]

/-- Source: `QUERY_KEYS.usersByRole(roleId, pageNumber, pageSize) =
['users', 'role', roleId, pageNumber, pageSize]`. -/
def usersByRole (roleId : String) (pageNumber pageSize : Option Nat) : QueryKey :=
  [KeyPart.str "users", KeyPart.str "role", KeyPart.str roleId,
   KeyPart.num pageNumber, KeyPart.num pageSize]

/-- Source: `QUERY_KEYS.activeUsers(pageNumber, pageSize) =
['users', 'active', pageNumber, pageSize]`. -/
def activeUsers (pageNumber pageSize : Option Nat) : QueryKey :=
  [KeyPart.str "users", KeyPart.str "active", KeyPart.num pageNumber,
   KeyPart.num pageSize]

end QUERY_KEYS

/-- The keys the registry in `userQuery.ts` lines 12 to 22 can
produce, as a predicate over key values. -/
def isRegistryKey (k : QueryKey) : Prop :=
  k = QUERY_KEYS.users
  ∨ (∃ id, k = QUERY_KEYS.user id)
  ∨ (∃ p, k = QUERY_KEYS.usersPaged p)
  ∨ (∃ t pn ps, k = QUERY_KEYS.searchUsers t pn ps)
  ∨ (∃ r pn ps, k = QUERY_KEYS.usersByRole r pn ps)
  ∨ (∃ pn ps, k = QUERY_KEYS.activeUsers pn ps)

/-- Key matching of the external query-cache library, as used by
`queryClient.invalidateQueries({ queryKey })`: a filter key matches
every cached key that it is a prefix of (so `['users']` matches the
whole user key family). -/
def queryKeyMatches : QueryKey → QueryKey → Bool
  | [], _ => true
  | _ :: _, [] => false
  | f :: fs, k :: ks => f == k && queryKeyMatches fs ks

/-- Freshness state of a cache entry. -/
inductive EntryState where
  | fresh | stale
deriving DecidableEq

/-- The cache viewed through entry freshness: one entry per cached
query key. -/
abbrev StateCache := List (QueryKey × EntryState)

/-- Source: `queryClient.invalidateQueries({ queryKey := filter })`: every
entry whose key the filter matches is marked stale; values are kept,
nothing is deleted. -/
def invalidateQueries (filter : QueryKey) (c : StateCache) : StateCache :=
  c.map (fun e => if queryKeyMatches filter e.1 then (e.1, EntryState.stale) else e)

/-- Running a mutation's `onSuccess` invalidation calls in order. -/
def runOnSuccess (filters : List QueryKey) (c : StateCache) : StateCache :=
  filters.foldl (fun acc f => invalidateQueries f acc) c

/-- The four mutation hooks of `userQuery.ts`, identified with the
variables their `onSuccess` handlers receive. -/
inductive Mutation where
  | createUser
  | updateUser (id : String)
  | deleteUser
  | updateUserStatus (id : String)

/-- The invalidation filters each hook's `onSuccess` issues, in
source order: `useCreateUser` and `useDeleteUser` invalidate
`QUERY_KEYS.users`; `useUpdateUser` and `useUpdateUserStatus`
invalidate `QUERY_KEYS.user(variables.id)` then `QUERY_KEYS.users`. -/
def Mutation.onSuccessFilters : Mutation → List QueryKey
  | .createUser => [QUERY_KEYS.users]
  | .updateUser id => [QUERY_KEYS.user id, QUERY_KEYS.users]
  | .deleteUser => [QUERY_KEYS.users]
  | .updateUserStatus id => [QUERY_KEYS.user id, QUERY_KEYS.users]

/-- The cache viewed through stored values: what `setQueryData` or an
optimistic rewrite would mutate.  Entries map a query key to the
value the query function last resolved with. -/
abbrev ValueCache := List (QueryKey × Json)

/-- Value lookup by structural key equality. -/
def cacheLookup (k : QueryKey) (c : ValueCache) : Option Json :=
  (c.find? (fun e => e.1 == k)).map (fun e => e.2)

/-- The cache-touching handlers a status mutation hook registers with
the query library: an optional `onMutate` (optimistic cache rewrite
applied when the mutation starts), an optional `onError` (rollback
applied when the call fails), and the `onSuccess` invalidation
filters. -/
structure StatusMutationHandlers where
  onMutate : Option (String × UserStatus → ValueCache → ValueCache)
  onError : Option (String × UserStatus → ValueCache → ValueCache)
  onSuccessFilters : String × UserStatus → List QueryKey

namespace useUpdateUserStatus

/-- The handlers `useUpdateUserStatus` actually registers
(`userQuery.ts` lines 108 to 119): only `mutationFn` and `onSuccess`
are passed to the library — there is no `onMutate` and no `onError`. -/
def handlers : StatusMutationHandlers :=
  { onMutate := none
    onError := none
    onSuccessFilters := fun v => [QUERY_KEYS.user v.1, QUERY_KEYS.users] }

/-- Source: `mutationFn`: `userService.updateUserStatus(id, status)`. -/
def mutationFn (baseUrl : String) (v : String × UserStatus) : BuiltRequest :=
  UserService.updateUserStatus baseUrl v.1 v.2

end useUpdateUserStatus

/-- The value cache while the mutation's network call is pending:
the library applies `onMutate` if one is registered, otherwise the
cache is untouched. -/
def pendingCache (h : StatusMutationHandlers) (v : String × UserStatus)
    (c : ValueCache) : ValueCache :=
  match h.onMutate with
  | some f => f v c
  | none => c

/-- The value cache after the network call fails: the library applies
`onError` if one is registered, otherwise the pending cache stands. -/
def cacheAfterFailure (h : StatusMutationHandlers) (v : String × UserStatus)
    (c : ValueCache) : ValueCache :=
  match h.onError with
  | some f => f v (pendingCache h v c)
  | none => pendingCache h v c

namespace useCreateUser

/-- Source: `mutationFn`: `userService.createUser(userData)`. -/
def mutationFn (baseUrl : String) (userData : CreateUserRequest) : BuiltRequest :=
  UserService.createUser baseUrl userData

/-- Source: `onSuccess` invalidates `QUERY_KEYS.users` (`userQuery.ts`
line 75). -/
def onSuccessFilters : List QueryKey := [QUERY_KEYS.users]

end useCreateUser

namespace useUser

/-- Source: `enabled: !!id` (`userQuery.ts` line 37); the argument is lifted
to `Option` because a JavaScript caller can pass `undefined` despite
the `string` annotation. -/
def enabled (id : Option String) : Bool := jsTruthyStr id

end useUser

namespace useSearchUsers

/-- Source: `enabled: !!searchTerm` (`userQuery.ts` line 46). -/
def enabled (searchTerm : Option String) : Bool := jsTruthyStr searchTerm

end useSearchUsers

namespace useUsersByRole

/-- Source: `enabled: !!roleId` (`userQuery.ts` line 55). -/
def enabled (roleId : Option String) : Bool := jsTruthyStr roleId

end useUsersByRole

/-! ## Helper lemmas about invalidation -/

theorem runOnSuccess_nil (c : StateCache) : runOnSuccess [] c = c := rfl

theorem runOnSuccess_cons (g : QueryKey) (t : List QueryKey) (c : StateCache) :
    runOnSuccess (g :: t) c = runOnSuccess t (invalidateQueries g c) := rfl

theorem invalidate_mem {f k : QueryKey} {s : EntryState} {c : StateCache}
    (h : (k, s) ∈ c) :
    (k, if queryKeyMatches f k then EntryState.stale else s) ∈ invalidateQueries f c := by
  have h2 := List.mem_map_of_mem
    (fun e => if queryKeyMatches f e.1 then (e.1, EntryState.stale) else e) h
  cases hq : queryKeyMatches f k <;> simpa [invalidateQueries, hq] using h2

theorem runOnSuccess_stale_mem {k : QueryKey} {c : StateCache}
    (filters : List QueryKey) (hs : (k, EntryState.stale) ∈ c) :
    (k, EntryState.stale) ∈ runOnSuccess filters c := by
  induction filters generalizing c with
  | nil => simpa [runOnSuccess] using hs
  | cons f t ih =>
    rw [runOnSuccess_cons]
    have h1 := invalidate_mem (f := f) hs
    rw [ite_self] at h1
    exact ih h1

theorem runOnSuccess_marks_stale (filters : List QueryKey) {f k : QueryKey}
    {s : EntryState} {c : StateCache}
    (hf : f ∈ filters) (hm : queryKeyMatches f k = true) (h : (k, s) ∈ c) :
    (k, EntryState.stale) ∈ runOnSuccess filters c := by
  induction filters generalizing s c with
  | nil => exact absurd hf (List.not_mem_nil f)
  | cons g t ih =>
    rw [runOnSuccess_cons]
    rcases List.mem_cons.mp hf with hg | hg
    · subst hg
      have h1 := invalidate_mem (f := f) h
      rw [hm, if_pos rfl] at h1
      exact runOnSuccess_stale_mem t h1
    · exact ih hg (invalidate_mem (f := g) h)

/-! ## Claims -/

/-- C10: an explicit empty-string base-address argument is falsy under
JavaScript `||`, so it is treated as absent: the base address falls
back to the environment value, or to `http://localhost:3000` when the
environment value is also unset; the resolved value is a pure
function of construction inputs (the field is `readonly`). -/
theorem c10_empty_base_url_falls_back :
    (∀ env, ApiBase.resolveBaseUrl (some "") env = ApiBase.resolveBaseUrl none env)
    ∧ ApiBase.resolveBaseUrl (some "") none = "http://localhost:3000"
    ∧ (∀ v, v ≠ "" → ApiBase.resolveBaseUrl (some "") (some v) = v) := by
  refine ⟨fun env => rfl, rfl, fun v hv => ?_⟩
  simp [ApiBase.resolveBaseUrl, jsOrStr, hv]

/-- Witness for C10 at a concrete environment value. -/
theorem c10_empty_base_url_falls_back_witness :
    ApiBase.resolveBaseUrl (some "") (some "https://api.example.com")
      = "https://api.example.com" :=
  c10_empty_base_url_falls_back.2.2 "https://api.example.com" (by decide)

/-- C9: the body-attachment condition of `makeRequest` is
`data && [POST, PUT, PATCH].includes(method)`, so a falsy supplied
`data` value (null, false, 0, empty string) attaches no body even
for a body-carrying method. -/
theorem c9_falsy_data_attaches_no_body :
    ∀ (baseUrl path : String) (m : Method) (d : Json),
      m.supportsBody = true → d.truthy = false →
      (ApiBase.makeRequest baseUrl path { method := m, data := some d }).body = none := by
  intro baseUrl path m d _ hd
  simp [ApiBase.makeRequest, hd]

/-- Witness for C9: `POST` with an empty-string body datum. -/
theorem c9_falsy_data_attaches_no_body_witness :
    Method.supportsBody Method.POST = true
    ∧ Json.truthy (Json.str "") = false
    ∧ (ApiBase.makeRequest "http://localhost:3000" "/api/users"
        { method := Method.POST, data := some (Json.str "") }).body = none :=
  ⟨rfl, rfl,
   c9_falsy_data_attaches_no_body "http://localhost:3000" "/api/users"
     Method.POST (Json.str "") rfl rfl⟩

/-- C6: each read hook that requires a parameter computes its
`enabled` flag as `!!param`, which is false exactly when the
parameter is absent or the empty string; the query library then never
issues the resource-client call for a disabled query, with no error
raised. -/
theorem c6_required_param_gating :
    ∀ x : Option String,
      (useUser.enabled x = false ↔ x = none ∨ x = some "")
      ∧ (useSearchUsers.enabled x = false ↔ x = none ∨ x = some "")
      ∧ (useUsersByRole.enabled x = false ↔ x = none ∨ x = some "") := by
  intro x
  have h : jsTruthyStr x = false ↔ x = none ∨ x = some "" := by
    cases x with
    | none => simp [jsTruthyStr]
    | some s => simp [jsTruthyStr]
  exact ⟨h, h, h⟩

/-- C4: for each operation kind of the key registry, the produced
keys are values determined by the parameters' field values: two
parameter tuples yield equal keys exactly when their field values are
equal (so independently constructed but logically equal parameters
collide, and different parameters never do). -/
theorem c4_query_key_value_equality :
    (∀ a b : String, QUERY_KEYS.user a = QUERY_KEYS.user b ↔ a = b)
    ∧ (∀ a b : Option PagedUserParams,
        QUERY_KEYS.usersPaged a = QUERY_KEYS.usersPaged b ↔ a = b)
    ∧ (∀ (t u : String) (pn qn ps qs : Option Nat),
        QUERY_KEYS.searchUsers t pn ps = QUERY_KEYS.searchUsers u qn qs
          ↔ t = u ∧ pn = qn ∧ ps = qs)
    ∧ (∀ (r u : String) (pn qn ps qs : Option Nat),
        QUERY_KEYS.usersByRole r pn ps = QUERY_KEYS.usersByRole u qn qs
          ↔ r = u ∧ pn = qn ∧ ps = qs)
    ∧ (∀ pn qn ps qs : Option Nat,
        QUERY_KEYS.activeUsers pn ps = QUERY_KEYS.activeUsers qn qs
          ↔ pn = qn ∧ ps = qs) := by
  refine ⟨?_, ?_, ?_, ?_, ?_⟩ <;> intros <;>
    simp [QUERY_KEYS.user, QUERY_KEYS.usersPaged, QUERY_KEYS.searchUsers,
          QUERY_KEYS.usersByRole, QUERY_KEYS.activeUsers]

/-- C3 (as amended): a completed response with a status outside
[200, 299] makes `makeRequest` fail with a generic `Error` whose
message is `HTTP error! status: {status}` — the status appears only
inside the message text, not as a typed field — and an exception
thrown by the transport is rethrown unchanged. -/
theorem c3_error_shape :
    (∀ (status : Nat) (ct : Option String) (body : String),
        statusOk status = false →
        ApiBase.handleResponse (FetchOutcome.completed status ct body)
          = Except.error (JsError.error ("HTTP error! status: " ++ toString status)))
    ∧ (∀ e : JsError,
        ApiBase.handleResponse (FetchOutcome.threw e) = Except.error e) := by
  constructor
  · intro status ct body h
    simp [ApiBase.handleResponse, h]
  · intro e
    rfl

/-- Witness for C3 at status 500. -/
theorem c3_error_shape_witness :
    statusOk 500 = false
    ∧ ApiBase.handleResponse (FetchOutcome.completed 500 none "")
        = Except.error (JsError.error ("HTTP error! status: " ++ toString 500)) :=
  ⟨by decide, c3_error_shape.1 500 none "" (by decide)⟩

/-- C3 counterexample: the gateway's failures are not distinguishable
typed errors.  A completed 500 response and a transport-thrown
generic error with the same message produce literally equal failure
values — there is no `RequestError` carrying a status-code field and
no separate `NetworkError` type. -/
theorem c3_counterexample_untyped_failures :
    ApiBase.handleResponse (FetchOutcome.completed 500 none "")
      = Except.error (JsError.error "HTTP error! status: 500")
    ∧ ApiBase.handleResponse
        (FetchOutcome.threw (JsError.error "HTTP error! status: 500"))
      = Except.error (JsError.error "HTTP error! status: 500") := by
  exact ⟨rfl, rfl⟩

/-- C5 counterexample: a supplied but falsy body datum (the empty
string) on a `POST` attaches no body, so "attached iff the method is
POST/PUT/PATCH and body data is supplied" fails in the
right-to-left direction. -/
theorem c5_counterexample_supplied_falsy_data :
    (ApiBase.makeRequest "http://localhost:3000" "/api/users"
      { method := Method.POST, data := some (Json.str "") }).method = Method.POST
    ∧ (ApiBase.makeRequest "http://localhost:3000" "/api/users"
        { method := Method.POST, data := some (Json.str "") }).body = none
    ∧ some (Json.str "") ≠ (none : Option Json) := by
  refine ⟨rfl, rfl, fun h => ?_⟩
  cases h

/-- C5 (as amended): a body is attached iff the method is POST, PUT
or PATCH and the supplied data is truthy; for GET and DELETE the
built request never carries a body even when data is supplied. -/
theorem c5_body_attachment_rule :
    ∀ (baseUrl path : String) (options : RequestOptions),
      ((ApiBase.makeRequest baseUrl path options).body ≠ none
        ↔ options.method.supportsBody = true
          ∧ ∃ d, options.data = some d ∧ d.truthy = true)
      ∧ ((options.method = Method.GET ∨ options.method = Method.DELETE) →
          (ApiBase.makeRequest baseUrl path options).body = none) := by
  intro baseUrl path options
  constructor
  · cases hd : options.data with
    | none => simp [ApiBase.makeRequest, hd]
    | some d =>
      cases ht : d.truthy <;> cases hs : options.method.supportsBody <;>
        simp [ApiBase.makeRequest, hd, ht, hs]
  · intro hm
    have hs : options.method.supportsBody = false := by
      rcases hm with h | h <;> rw [h] <;> rfl
    cases hd : options.data <;> simp [ApiBase.makeRequest, hd, hs]

/-- Witness for C5: a `DELETE` with supplied data carries no body. -/
theorem c5_body_attachment_rule_witness :
    (ApiBase.makeRequest "http://localhost:3000" "/api/users/1"
      { method := Method.DELETE, data := some (Json.str "x") }).body = none :=
  (c5_body_attachment_rule "http://localhost:3000" "/api/users/1"
    { method := Method.DELETE, data := some (Json.str "x") }).2 (Or.inr rfl)

/-- C2 counterexample: the unfiltered list read with its params
argument omitted issues a request with no query string at all — in
particular no `pageNumber=1&pageSize=10` defaults. -/
theorem c2_counterexample_unfiltered_list_no_defaults :
    (UserService.getUsers "http://localhost:3000" none).url
      = "http://localhost:3000/api/users"
    ∧ ¬ List.IsInfix "pageNumber".toList "http://localhost:3000/api/users".toList := by
  exact ⟨rfl, by decide⟩

/-- C2 (as amended): the search, by-role and active reads substitute
`pageNumber=1&pageSize=10` when the page arguments are omitted, but
the unfiltered list read applies no defaults — with its params
omitted the issued request carries no query parameters. -/
theorem c2_pagination_defaults :
    ∀ baseUrl : String,
      (UserService.searchUsers baseUrl "q" none none).url
        = baseUrl ++ "/api/users/search" ++ "?" ++ "searchTerm=q&pageNumber=1&pageSize=10"
      ∧ (UserService.getUsersByRole baseUrl "r1" none none).url
        = baseUrl ++ "/api/users/role/r1" ++ "?" ++ "pageNumber=1&pageSize=10"
      ∧ (UserService.getActiveUsers baseUrl none none).url
        = baseUrl ++ "/api/users/active" ++ "?" ++ "pageNumber=1&pageSize=10"
      ∧ (UserService.getUsers baseUrl none).url = baseUrl ++ "/api/users"
      ∧ (UserService.getUsers baseUrl none).method = Method.GET := by
  intro baseUrl
  exact ⟨rfl, rfl, rfl, rfl, rfl⟩

/-- C7: a create request whose input omits the optional phone field
is a `POST {baseUrl}/api/users` whose JSON body holds exactly the
supplied email, name and password keys — no `phone` key in any form —
and on success the `useCreateUser` invalidation marks every paged
users-list entry (the unfiltered list included) stale. -/
theorem c7_create_user_request :
    ∀ (baseUrl : String) (r : CreateUserRequest), r.phone = none →
      (UserService.createUser baseUrl r).method = Method.POST
      ∧ (UserService.createUser baseUrl r).url = baseUrl ++ "/api/users"
      ∧ (UserService.createUser baseUrl r).body
          = some (Json.obj
              [("email", Json.str r.email), ("name", Json.str r.name),
               ("password", Json.str r.password)])
      ∧ (∀ (c : StateCache) (p : Option PagedUserParams) (s : EntryState),
          (QUERY_KEYS.usersPaged p, s) ∈ c →
          (QUERY_KEYS.usersPaged p, EntryState.stale)
            ∈ runOnSuccess useCreateUser.onSuccessFilters c) := by
  intro baseUrl r hp
  refine ⟨rfl, rfl, ?_, ?_⟩
  · simp [UserService.createUser, ApiBase.makeRequest, CreateUserRequest.toJson,
          hp, Json.truthy, Method.supportsBody]
  · intro c p s hmem
    refine runOnSuccess_marks_stale useCreateUser.onSuccessFilters
      (f := QUERY_KEYS.users) ?_ ?_ hmem
    · exact List.mem_singleton.mpr rfl
    · rfl

/-- Witness for C7: the spec's scenario input
`{email: "a@x.com", name: "A", password: "p"}`. -/
theorem c7_create_user_request_witness :
    (UserService.createUser "http://localhost:3000"
        ⟨"a@x.com", "A", none, "p"⟩).body
      = some (Json.obj
          [("email", Json.str "a@x.com"), ("name", Json.str "A"),
           ("password", Json.str "p")])
    ∧ (QUERY_KEYS.usersPaged none, EntryState.stale)
        ∈ runOnSuccess useCreateUser.onSuccessFilters
            [(QUERY_KEYS.usersPaged none, EntryState.fresh)] :=
  ⟨(c7_create_user_request "http://localhost:3000"
      ⟨"a@x.com", "A", none, "p"⟩ rfl).2.2.1,
   (c7_create_user_request "http://localhost:3000"
      ⟨"a@x.com", "A", none, "p"⟩ rfl).2.2.2
     [(QUERY_KEYS.usersPaged none, EntryState.fresh)] none EntryState.fresh
     (List.mem_singleton.mpr rfl)⟩

/-- C8: every key the registry can produce starts with the segment
`users`; every mutation hook invalidates with the prefix key
`['users']` on success; hence after any successful mutation every
cached user read entry — paged lists, search, role and active
filters, and single-user entries — is marked stale. -/
theorem c8_users_key_family_invalidation :
    (∀ k : QueryKey, isRegistryKey k → queryKeyMatches QUERY_KEYS.users k = true)
    ∧ (∀ m : Mutation, QUERY_KEYS.users ∈ m.onSuccessFilters)
    ∧ (∀ (m : Mutation) (k : QueryKey) (s : EntryState) (c : StateCache),
        isRegistryKey k → (k, s) ∈ c →
        (k, EntryState.stale) ∈ runOnSuccess m.onSuccessFilters c) := by
  have hmatch : ∀ k, isRegistryKey k → queryKeyMatches QUERY_KEYS.users k = true := by
    intro k hk
    rcases hk with h | ⟨id, h⟩ | ⟨p, h⟩ | ⟨t, pn, ps, h⟩ | ⟨r, pn, ps, h⟩ | ⟨pn, ps, h⟩ <;>
      subst h <;> rfl
  have hmem : ∀ m : Mutation, QUERY_KEYS.users ∈ m.onSuccessFilters := by
    intro m
    cases m <;> simp [Mutation.onSuccessFilters]
  refine ⟨hmatch, hmem, ?_⟩
  intro m k s c hk hc
  exact runOnSuccess_marks_stale _ (hmem m) (hmatch k hk) hc

/-- Witness for C8: a successful status-update on id "1" marks the
cached single-user entry for "1" stale. -/
theorem c8_users_key_family_invalidation_witness :
    isRegistryKey (QUERY_KEYS.user "1")
    ∧ (QUERY_KEYS.user "1", EntryState.stale)
        ∈ runOnSuccess (Mutation.updateUserStatus "1").onSuccessFilters
            [(QUERY_KEYS.user "1", EntryState.fresh)] := by
  have hk : isRegistryKey (QUERY_KEYS.user "1") := Or.inr (Or.inl ⟨"1", rfl⟩)
  exact ⟨hk,
    c8_users_key_family_invalidation.2.2 (Mutation.updateUserStatus "1")
      (QUERY_KEYS.user "1") EntryState.fresh
      [(QUERY_KEYS.user "1", EntryState.fresh)] hk (List.mem_singleton.mpr rfl)⟩

/-- The user object of the C1 scenario: id "1", status `active`. -/
def activeUserOne : Json :=
  Json.obj [("id", Json.str "1"), ("email", Json.str "a@x.com"),
            ("name", Json.str "A"), ("status", Json.str "active"),
            ("createdAt", Json.str "2024-01-01"), ("updatedAt", Json.str "2024-01-01")]

/-- The cached `UserResponse` value for the C1 scenario. -/
def cachedResponseOne : Json :=
  Json.obj [("data", activeUserOne), ("message", Json.str "OK")]

/-- A value cache whose single-user entry for id "1" is populated. -/
def c1InitialCache : ValueCache := [(QUERY_KEYS.user "1", cachedResponseOne)]

/-- C1 counterexample: `useUpdateUserStatus` registers no `onMutate`,
so while an update of user "1" from `active` to `inactive` is
pending the cache entry is byte-for-byte the original — its status
field still reads `active`, not the claimed speculative `inactive`. -/
theorem c1_counterexample_no_speculative_write :
    pendingCache useUpdateUserStatus.handlers ("1", UserStatus.inactive) c1InitialCache
      = c1InitialCache
    ∧ cacheLookup (QUERY_KEYS.user "1")
        (pendingCache useUpdateUserStatus.handlers ("1", UserStatus.inactive) c1InitialCache)
      = some cachedResponseOne
    ∧ (cachedResponseOne.getField "data").bind (fun u => u.getField "status")
      = some (Json.str "active")
    ∧ Json.str "active" ≠ Json.str "inactive" := by
  refine ⟨rfl, rfl, rfl, fun h => ?_⟩
  injection h with h2
  exact absurd h2 (by decide)

/-- C1 (as amended): the status-update mutation performs no
optimistic cache write at all — it registers neither `onMutate` nor
`onError`, so the cached entry is unchanged while the call is pending
and unchanged after a failure (hence trivially equal to the
pre-mutation snapshot); on success it invalidates the single-user
entry for the id and the whole `users` family instead of writing a
speculative value. -/
theorem c1_status_mutation_no_optimistic_update :
    useUpdateUserStatus.handlers.onMutate = none
    ∧ useUpdateUserStatus.handlers.onError = none
    ∧ (∀ (v : String × UserStatus) (c : ValueCache),
        pendingCache useUpdateUserStatus.handlers v c = c
        ∧ cacheAfterFailure useUpdateUserStatus.handlers v c = c)
    ∧ (∀ (id : String) (st : UserStatus),
        QUERY_KEYS.user id ∈ useUpdateUserStatus.handlers.onSuccessFilters (id, st)
        ∧ QUERY_KEYS.users ∈ useUpdateUserStatus.handlers.onSuccessFilters (id, st)) := by
  refine ⟨rfl, rfl, fun v c => ⟨rfl, rfl⟩, fun id st => ⟨?_, ?_⟩⟩ <;>
    simp [useUpdateUserStatus.handlers]

end NextjsStarter
